import Mathlib

/-!
Verification development for the tap-todoist repository.

The repository is a Singer tap for the Todoist sync API.  We shallowly embed
its data model and operations:

* `Json` — the JSON documents exchanged with the API.
* `TapTodoist.BearerAuth` — the bearer-token request hook (`tap.py`).
* `TapTodoist.TodoistClient` — the client state (`_data`), `get_auth`,
  `get_data`, `prepare` (the single sync POST), and the record read
  (`SyncStream.get_records`, i.e. `records_for`).
* `TapTodoist.SCHEMAS` — the static schema registry (`catalog.py`).
* `TapTodoist.discover` — catalog discovery (`base_connector.py` + `tap.py`).
* `TapTodoist.sync_all` — the run orchestration (`tap.py`), with the
  record-emitting loop of the delegated Singer framework modelled from the
  spec.

Errors are represented by the spec's abstract names (`ConfigurationError`,
`TransportError`, `MissingStreamError`, ...) standing for the concrete Python
exceptions (`KeyError`, `requests.HTTPError`, ...) raised at the same program
points.
-/

/-- JSON values, as produced by `response.json()` in Python.  Numbers are
modelled as integers; no claim involves fractional JSON numbers. -/
inductive Json where
  | null : Json
  | bool (b : Bool) : Json
  | num (n : Int) : Json
  | str (s : String) : Json
  | arr (elems : List Json) : Json
  | obj (fields : List (String × Json)) : Json

/-- Lookup of a key in the field list of a JSON object (Python `d[k]` on a
`dict` parsed from JSON: first match, `KeyError` modelled as `none`). -/
def jsonFieldLookup : List (String × Json) → String → Option Json
  | [], _ => none
  | (k, v) :: rest, key => if k = key then some v else jsonFieldLookup rest key

/-- `doc[key]` for a parsed JSON document.  Subscripting a non-object (for
example `None[key]`, a `TypeError` in Python) is also a failed lookup. -/
def Json.lookup : Json → String → Option Json
  | .obj fields, key => jsonFieldLookup fields key
  | _, _ => none

namespace TapTodoist

/-- A tap configuration: the JSON config mapping restricted to string values
(the only declared setting, `token`, is a string). -/
def Config := List (String × String)

/-- `config[key]` / `config.get(key)`. -/
def configLookup : Config → String → Option String
  | [], _ => none
  | (k, v) :: rest, key => if k = key then some v else configLookup rest key

/-- The abstract error outcomes of the spec, standing for the Python
exceptions raised at the corresponding program points. -/
inductive Err where
  | configurationError : Err
  | transportError : Err
  | jsonError : Err
  | keyError : Err
  | missingStreamError : Err
  deriving DecidableEq, Repr

/-- Observable side effects of a run; the only one the claims care about is
an outgoing HTTP request. -/
inductive Event where
  | networkCall : Event
  deriving DecidableEq, Repr

/-! ### BearerAuth (`tap.py`, class `BearerAuth`) -/

/-- A `requests.PreparedRequest`: the parts an auth hook can observe or
mutate.  Headers are an insertion-ordered, case-insensitive mapping
(`requests` uses a `CaseInsensitiveDict`). -/
structure PreparedRequest where
  method : String
  url : String
  headers : List (String × String)
  body : String
  deriving DecidableEq, Repr

/-- ASCII lowercasing of one character (`str.lower` on the ASCII header
keys `CaseInsensitiveDict` compares by). -/
def lowerChar (c : Char) : Char :=
  if 65 ≤ c.toNat ∧ c.toNat ≤ 90 then Char.ofNat (c.toNat + 32) else c

/-- ASCII lowercasing of a header key. -/
def lowerKey (s : String) : String :=
  String.mk (s.toList.map lowerChar)

/-- Case-insensitive header lookup (`CaseInsensitiveDict.__getitem__`). -/
def headerGet (headers : List (String × String)) (key : String) : Option String :=
  match headers with
  | [] => none
  | (k, v) :: rest =>
    if lowerKey k = lowerKey key then some v else headerGet rest key

/-- Case-insensitive header assignment (`CaseInsensitiveDict.__setitem__`):
replace the first case-insensitive match in place, else append. -/
def headerSet (headers : List (String × String)) (key value : String) :
    List (String × String) :=
  match headers with
  | [] => [(key, value)]
  | (k, v) :: rest =>
    if lowerKey k = lowerKey key then (key, value) :: rest
    else (k, v) :: headerSet rest key value

/-- `BearerAuth.__call__`: set the `Authorization` header to
`Bearer <token>` on the outgoing request and return it. -/
def BearerAuth.call (token : String) (request : PreparedRequest) :
    PreparedRequest :=
  { request with
    headers := headerSet request.headers "Authorization" ("Bearer " ++ token) }

/-! ### Schema registry (`catalog.py`)

`th.Property` declarations carry a name, a type, a `required` flag and an
optional `allowed_values` list.  The free-text `description` strings are pure
documentation metadata and are not carried by the embedding. -/

mutual

/-- A `singer_sdk.typing` JSON-schema type: the primitive types used in
`catalog.py` plus arrays, object types with declared properties, and object
types declared via `additional_properties`. -/
inductive PropType : Type where
  | string : PropType
  | integer : PropType
  | boolean : PropType
  | datetime : PropType
  | array : PropType → PropType
  | object : List Property → PropType
  | objectAdditional : PropType → PropType

/-- A `th.Property(name, type, required, allowed_values)` declaration. -/
inductive Property : Type where
  | mk : String → PropType → Bool → Option (List String) → Property

end

/-- The declared field name of a property. -/
def Property.name : Property → String
  | .mk n _ _ _ => n

/-- The declared type of a property. -/
def Property.ptype : Property → PropType
  | .mk _ t _ _ => t

/-- The `required` flag of a property. -/
def Property.required : Property → Bool
  | .mk _ _ r _ => r

/-- The `allowed_values` of a property, when declared. -/
def Property.allowedValues : Property → Option (List String)
  | .mk _ _ _ a => a

/-- A `PropertiesList`: the ordered fields of one stream schema. -/
def PropertiesList := List Property

/-- The `SCHEMAS` table of `catalog.py`: the static mapping from stream name
to schema, in source order. -/
def SCHEMAS : List (String × PropertiesList) :=
  [ ("projects",
      [ .mk "id" .string false none,
        .mk "name" .string false none,
        .mk "color" .string false none,
        .mk "parent_id" .string false none,
        .mk "child_order" .integer false none,
        .mk "collapsed" .boolean false none,
        .mk "shared" .boolean false none,
        .mk "is_deleted" .boolean false none,
        .mk "is_archived" .boolean false none,
        .mk "is_favorite" .boolean false none,
        .mk "inbox_project" .boolean false none,
        .mk "team_inbox" .boolean false none,
        .mk "view_style" .string false (some ["list", "board"]) ]),
    ("items",
      [ .mk "id" .string false none,
        .mk "user_id" .string false none,
        .mk "project_id" .string false none,
        .mk "content" .string false none,
        .mk "description" .string false none,
        .mk "due"
          (.object
            [ .mk "date" .string false none,
              .mk "is_recurring" .boolean false none,
              .mk "string" .string false none,
              .mk "timezone" .string false none,
              .mk "lang" .string false none ])
          false none,
        .mk "priority" .integer false none,
        .mk "parent_id" .string false none,
        .mk "child_order" .integer false none,
        .mk "section_id" .string false none,
        .mk "day_order" .integer false none,
        .mk "collapsed" .integer false none,
        .mk "labels" (.array .string) false none,
        .mk "added_by_uid" .string false none,
        .mk "assigned_by_uid" .string false none,
        .mk "responsible_uid" .string false none,
        .mk "checked" .integer false none,
        .mk "is_deleted" .boolean false none,
        .mk "completed_at" .string false none,
        .mk "added_at" .string false none ]),
    ("sections",
      [ .mk "id" .string false none,
        .mk "name" .string false none,
        .mk "project_id" .string false none,
        .mk "section_order" .integer false none,
        .mk "collapsed" .integer false none,
        .mk "is_deleted" .boolean false none,
        .mk "is_archived" .boolean false none,
        .mk "archived_at" .string false none,
        .mk "added_at" .string false none ]),
    ("labels",
      [ .mk "id" .string false none,
        .mk "name" .string false none,
        .mk "color" .string false none,
        .mk "item_order" .integer false none,
        .mk "is_deleted" .boolean false none,
        .mk "is_favorite" .boolean false none ]),
    ("notes",
      [ .mk "id" .string true none,
        .mk "posted_uid" .string false none,
        .mk "item_id" .string false none,
        .mk "content" .string false none,
        .mk "file_attachment"
          (.object
            [ .mk "file_name" .string false none,
              .mk "file_size" .integer false none,
              .mk "file_type" .string false none,
              .mk "file_url" .string false none,
              .mk "upload_state" .string false none ])
          false none,
        .mk "is_deleted" .boolean false none,
        .mk "posted_at" .datetime false none,
        .mk "reactions" (.objectAdditional (.array (.array .string))) false none ]),
    ("filters",
      [ .mk "id" .string true none,
        .mk "name" .string false none,
        .mk "query" .string false none,
        .mk "color" .string false
          (some
            [ "berry_red", "red", "orange", "yellow", "olive_green",
              "lime_green", "green", "mint_green", "teal", "sky_blue",
              "light_blue", "blue", "grape", "violet", "lavender",
              "magenta", "salmon", "charcoal", "grey", "taupe" ]),
        .mk "item_order" .integer false none,
        .mk "is_deleted" .boolean false none,
        .mk "is_favorite" .boolean false none ]),
    ("reminders",
      [ .mk "id" .string true none,
        .mk "notify_uid" .string false none,
        .mk "item_id" .string false none,
        .mk "type" .string false (some ["relative", "absolute", "location"]),
        .mk "nm_offset" .integer false none,
        .mk "loc_lat" .string false none,
        .mk "loc_long" .string false none,
        .mk "loc_trigger" .string false (some ["on_enter", "on_leave"]),
        .mk "radius" .integer false none,
        .mk "is_deleted" .integer false none ]) ]

/-- Lookup in an association list of schemas (Python `dict` access). -/
def schemaLookup : List (String × PropertiesList) → String → Option PropertiesList
  | [], _ => none
  | (k, v) :: rest, key => if k = key then some v else schemaLookup rest key

/-- `SCHEMAS[name]` / the spec's `schema_for(name)`: lookup of a stream name
in the registry. -/
def schema_for (name : String) : Option PropertiesList :=
  schemaLookup SCHEMAS name

/-! ### Catalog and discovery (`tap.py` `discover_catalog_entries`,
`base_connector.py` `discover`) -/

/-- `singer_sdk.streams.core.REPLICATION_LOG_BASED`. -/
def REPLICATION_LOG_BASED : String := "LOG_BASED"

/-- A `singer_sdk._singerlib.CatalogEntry` as built by
`discover_catalog_entries`: stream id, schema, key properties, and the
standard metadata relevant here (replication method, valid replication keys,
root `selected` flag). -/
structure CatalogEntry where
  tap_stream_id : String
  schema : PropertiesList
  key_properties : List String
  replication_method : String
  valid_replication_keys : Option (List String)
  selected : Bool

/-- A `Catalog`: a mapping from `tap_stream_id` to entry, insertion-ordered
(Python `dict` semantics). -/
def Catalog := List CatalogEntry

/-- `TodoistClient.discover_catalog_entries`: one entry per `SCHEMAS` item,
with schema from the registry, key property `id`, log-based replication, and
no valid replication keys.  `get_standard_metadata` leaves the root
`selected` flag unset. -/
def discover_catalog_entries (_config : Config) : List CatalogEntry :=
  SCHEMAS.map fun p =>
    { tap_stream_id := p.1
      schema := p.2
      key_properties := ["id"]
      replication_method := REPLICATION_LOG_BASED
      valid_replication_keys := none
      selected := false }

/-- `self.catalog[entry.tap_stream_id] = entry`: dict assignment, replacing
an existing entry with the same stream id in place or appending. -/
def catalogUpsert (entry : CatalogEntry) : Catalog → Catalog
  | [] => [entry]
  | e :: rest =>
    if e.tap_stream_id = entry.tap_stream_id then entry :: rest
    else e :: catalogUpsert entry rest

/-- `HTTPConnector.discover`: for each discovered entry, mark it selected and
store it in the connector catalog keyed by stream id. -/
def discover (config : Config) (catalog : Catalog) : Catalog :=
  (discover_catalog_entries config).foldl
    (fun cat entry => catalogUpsert { entry with selected := true } cat) catalog

/-! ### The sync request body (`TodoistClient.get_data`)

`get_data` JSON-encodes the selected stream names with `json.dumps`.  The
encoder below models `json.dumps` on a list of strings with its defaults
(item separator `", "`, `ensure_ascii=True`: characters outside
`0x20`–`0x7e` escaped, astral code points as surrogate pairs).  A decoder
`json_loads_strlist` models `json.loads` restricted to arrays of strings
(`\uXXXX` escapes decoded without surrogate-pair recombination). -/

/-- Lowercase hexadecimal digit. -/
def hexDigit (n : Nat) : Char :=
  if n < 10 then Char.ofNat (48 + n) else Char.ofNat (87 + n)

/-- Four-digit lowercase hexadecimal rendering, as in `\uXXXX`. -/
def hex4 (n : Nat) : List Char :=
  [hexDigit (n / 4096 % 16), hexDigit (n / 256 % 16),
   hexDigit (n / 16 % 16), hexDigit (n % 16)]

/-- `json.dumps` escaping of one character of a string. -/
def escapeChar (c : Char) : List Char :=
  if c = '"' then ['\\', '"']
  else if c = '\\' then ['\\', '\\']
  else if c = '\n' then ['\\', 'n']
  else if c = '\t' then ['\\', 't']
  else if c = '\r' then ['\\', 'r']
  else if c.toNat = 8 then ['\\', 'b']
  else if c.toNat = 12 then ['\\', 'f']
  else if 32 ≤ c.toNat ∧ c.toNat ≤ 126 then [c]
  else if c.toNat ≤ 65535 then '\\' :: 'u' :: hex4 c.toNat
  else
    ('\\' :: 'u' :: hex4 (55296 + (c.toNat - 65536) / 1024)) ++
    ('\\' :: 'u' :: hex4 (56320 + (c.toNat - 65536) % 1024))

/-- `json.dumps` rendering of one string, quotes included. -/
def jsonQuote (s : String) : String :=
  "\"" ++ String.mk (s.toList.flatMap escapeChar) ++ "\""

/-- `json.dumps` on a list of strings (default separators: `", "`). -/
def json_dumps_strlist (l : List String) : String :=
  "[" ++ String.intercalate ", " (l.map jsonQuote) ++ "]"

/-- JSON insignificant whitespace skipping. -/
def skipSpaces : List Char → List Char
  | [] => []
  | c :: rest =>
    if c = ' ' ∨ c = '\t' ∨ c = '\n' ∨ c = '\r' then skipSpaces rest
    else c :: rest

/-- Value of a hexadecimal digit character. -/
def hexVal (c : Char) : Option Nat :=
  if 48 ≤ c.toNat ∧ c.toNat ≤ 57 then some (c.toNat - 48)
  else if 97 ≤ c.toNat ∧ c.toNat ≤ 102 then some (c.toNat - 87)
  else if 65 ≤ c.toNat ∧ c.toNat ≤ 70 then some (c.toNat - 55)
  else none

/-- Parse the body of a JSON string after the opening quote, returning the
decoded string and the remaining input. -/
def parseStringBody (acc : List Char) : List Char → Option (String × List Char)
  | [] => none
  | c :: rest =>
    if c = '"' then some (String.mk acc.reverse, rest)
    else if c = '\\' then
      match rest with
      | [] => none
      | e :: rest2 =>
        if e = '"' then parseStringBody ('"' :: acc) rest2
        else if e = '\\' then parseStringBody ('\\' :: acc) rest2
        else if e = '/' then parseStringBody ('/' :: acc) rest2
        else if e = 'n' then parseStringBody ('\n' :: acc) rest2
        else if e = 't' then parseStringBody ('\t' :: acc) rest2
        else if e = 'r' then parseStringBody ('\r' :: acc) rest2
        else if e = 'b' then parseStringBody (Char.ofNat 8 :: acc) rest2
        else if e = 'f' then parseStringBody (Char.ofNat 12 :: acc) rest2
        else if e = 'u' then
          match rest2 with
          | h1 :: h2 :: h3 :: h4 :: rest3 =>
            match hexVal h1, hexVal h2, hexVal h3, hexVal h4 with
            | some a, some b, some cHex, some d =>
              parseStringBody
                (Char.ofNat (a * 4096 + b * 256 + cHex * 16 + d) :: acc) rest3
            | _, _, _, _ => none
          | _ => none
        else none
    else parseStringBody (c :: acc) rest

/-- Parse the elements of a non-empty JSON array of strings, the opening
bracket already consumed. -/
def parseElems (fuel : Nat) (acc : List String) (cs : List Char) :
    Option (List String) :=
  match fuel with
  | 0 => none
  | fuel + 1 =>
    match skipSpaces cs with
    | '"' :: rest =>
      match parseStringBody [] rest with
      | none => none
      | some (s, rest2) =>
        match skipSpaces rest2 with
        | ',' :: rest3 => parseElems fuel (s :: acc) rest3
        | ']' :: rest4 =>
          if skipSpaces rest4 = [] then some (s :: acc).reverse else none
        | _ => none
    | _ => none

/-- `json.loads` restricted to a JSON array of strings. -/
def json_loads_strlist (s : String) : Option (List String) :=
  match skipSpaces s.toList with
  | '[' :: rest =>
    match skipSpaces rest with
    | ']' :: rest2 => if skipSpaces rest2 = [] then some [] else none
    | cs => parseElems (cs.length + 1) [] cs
  | _ => none

/-- The body of the sync POST. -/
structure RequestBody where
  sync_token : String
  resource_types : String
  deriving DecidableEq, Repr

/-- The selection loop of `TodoistClient.get_data`: the stream ids of the
catalog entries whose resolved root selection mask is true, in catalog
order. -/
def selectedStreamsLoop (catalog : Catalog) : List String :=
  catalog.foldl
    (fun acc entry =>
      if entry.selected then acc ++ [entry.tap_stream_id] else acc) []

/-- `TodoistClient.get_data`: the request body, with the wildcard sync token
and the JSON-encoded selected stream names. -/
def get_data (catalog : Catalog) : RequestBody :=
  { sync_token := "*"
    resource_types := json_dumps_strlist (selectedStreamsLoop catalog) }

/-! ### The client, `prepare` and record reads (`tap.py`) -/

/-- `TodoistClient` state: `_data` holds the parsed sync response, `None`
until `prepare` has stored one. -/
structure TodoistClient where
  _data : Option Json

/-- A freshly constructed client (`TodoistClient.__init__`). -/
def TodoistClient.init : TodoistClient := ⟨none⟩

/-- The `TodoistClient.data` property. -/
def TodoistClient.data (client : TodoistClient) : Option Json :=
  client._data

/-- `TodoistClient.get_auth`: the bearer credential from `config["token"]`;
a missing key is the spec's `ConfigurationError`. -/
def get_auth (config : Config) : Except Err String :=
  match configLookup config "token" with
  | none => .error .configurationError
  | some token => .ok token

/-- The HTTP response of the sync POST, as observed by `prepare`: status
code and JSON parse result of the body (`none` = malformed body, so
`response.json()` fails). -/
structure HttpResponse where
  status : Nat
  body : Option Json

/-- `TodoistClient.prepare`: returns the emitted network events, the client
state after the call, and the error outcome if any.  Faithful to the source
order: `prepare_session` runs `get_auth` (before any request is sent), then
`send_request` performs the POST, then `raise_for_status` raises for status
codes 400–599 (the spec's `TransportError`), then `response.json()` is
parsed and assigned to `_data`, and finally the two logging statements read
`_data["full_sync"]` and `_data["sync_token"]` (a `KeyError` there occurs
after `_data` was assigned). -/
def prepare (config : Config) (client : TodoistClient)
    (response : HttpResponse) : List Event × TodoistClient × Option Err :=
  match get_auth config with
  | .error e => ([], client, some e)
  | .ok _token =>
    if 400 ≤ response.status ∧ response.status < 600 then
      ([.networkCall], client, some .transportError)
    else
      match response.body with
      | none => ([.networkCall], client, some .jsonError)
      | some doc =>
        let client2 : TodoistClient := ⟨some doc⟩
        match doc.lookup "full_sync" with
        | none => ([.networkCall], client2, some .keyError)
        | some _ =>
          match doc.lookup "sync_token" with
          | none => ([.networkCall], client2, some .keyError)
          | some _ => ([.networkCall], client2, none)

/-- `SyncStream.get_records` / the spec's `records_for`: index the stored
sync response by stream name.  An unset `_data` or a missing key is the
spec's `MissingStreamError`. -/
def get_records (client : TodoistClient) (name : String) : Except Err Json :=
  match client._data with
  | none => .error .missingStreamError
  | some doc =>
    match doc.lookup name with
    | none => .error .missingStreamError
    | some records => .ok records

/-! ### Run orchestration (`TapTodoist.sync_all`) -/

/-- A phase of a run, for the temporal claims. -/
inductive Phase where
  | discovery : Phase
  | fetch : Phase
  | read (stream : String) : Phase
  deriving DecidableEq, Repr

/-- Modelled from the spec: the delegated Singer framework's sync-all
procedure, which is not part of this repository, "consumes discovered stream
declarations and a record-producing callback per stream" and emits each
selected stream's records once; each such read is one `Phase.read`. -/
def framework_sync_all (catalog : Catalog) : List Phase :=
  (catalog.filter fun entry => entry.selected).map
    fun entry => Phase.read entry.tap_stream_id

/-- `TapTodoist.sync_all`: discovery on the fresh client's empty catalog,
then the single `prepare` (whose one POST is the fetch phase), then — only
if `prepare` succeeded — the delegated framework's record emission.  Returns
the phase trace and the error that halted the run, if any. -/
def sync_all (config : Config) (response : HttpResponse) :
    List Phase × Option Err :=
  let catalog := discover config []
  let r := prepare config TodoistClient.init response
  let fetchPhases := r.1.map fun _ => Phase.fetch
  match r.2.2 with
  | some e => (Phase.discovery :: fetchPhases, some e)
  | none => (Phase.discovery :: fetchPhases ++ framework_sync_all catalog, none)

/-! ### Concrete values used to instantiate the theorems -/

/-- The mocked successful sync response document of the spec's test
scenario. -/
def exampleDoc : Json :=
  .obj [("projects", .arr [.obj [("id", .str "1"), ("name", .str "A")]]),
        ("sync_token", .str "abc"), ("full_sync", .bool true)]

/-- The mocked successful HTTP response carrying `exampleDoc`. -/
def exampleResponse : HttpResponse := ⟨200, some exampleDoc⟩

/-- A discovered catalog in which exactly the `projects` and `labels`
streams are selected. -/
def exampleSelection : Catalog :=
  (discover [] []).map fun e =>
    { e with
      selected := e.tap_stream_id == "projects" || e.tap_stream_id == "labels" }

end TapTodoist

namespace TapTodoist

/-! ## Theorems -/

/-- The selection loop of `get_data` collects exactly the stream ids of the
selected catalog entries, in order. -/
theorem selectedStreamsLoop_eq_filter (catalog : Catalog) :
    selectedStreamsLoop catalog =
      (catalog.filter fun e => e.selected).map fun e => e.tap_stream_id := by
  have aux : ∀ (l : List CatalogEntry) (acc : List String),
      l.foldl (fun a e => if e.selected then a ++ [e.tap_stream_id] else a) acc
        = acc ++ (l.filter fun e => e.selected).map fun e => e.tap_stream_id := by
    intro l
    induction l with
    | nil => intro acc; simp
    | cons e rest ih =>
      intro acc
      cases hsel : e.selected with
      | false => simp [hsel, ih]
      | true => simp [hsel, ih]
  exact aux catalog []

/-- C1: for every catalog, the request body built by `get_data` has
`sync_token` equal to `"*"` and `resource_types` equal to the JSON encoding
of exactly the selected stream names; in particular, for the selection set
containing exactly `projects` and `labels`, `resource_types` JSON-decodes to
exactly `["projects", "labels"]`. -/
theorem get_data_spec (catalog : Catalog) :
    (get_data catalog).sync_token = "*" ∧
    (get_data catalog).resource_types =
      json_dumps_strlist
        ((catalog.filter fun e => e.selected).map fun e => e.tap_stream_id) ∧
    json_loads_strlist (get_data exampleSelection).resource_types =
      some ["projects", "labels"] := by
  refine ⟨rfl, ?_, rfl⟩
  show json_dumps_strlist (selectedStreamsLoop catalog) = _
  rw [selectedStreamsLoop_eq_filter]

/-- C2: after a successful `prepare` (fetch) whose parsed response document
contains the key `s`, `get_records` for stream `s` returns exactly that
document's sub-collection for `s`, unchanged. -/
theorem get_records_passthrough (config : Config) (client : TodoistClient)
    (response : HttpResponse) (events : List Event)
    (client2 : TodoistClient) (doc : Json) (s : String) (records : Json)
    (hprep : prepare config client response = (events, client2, none))
    (hbody : response.body = some doc)
    (hkey : doc.lookup s = some records) :
    get_records client2 s = .ok records := by
  unfold prepare at hprep
  cases hauth : get_auth config with
  | error e => rw [hauth] at hprep; simp at hprep
  | ok token =>
    rw [hauth] at hprep
    by_cases hst : 400 ≤ response.status ∧ response.status < 600
    · rw [if_pos hst] at hprep; simp at hprep
    · rw [if_neg hst, hbody] at hprep
      cases hfull : doc.lookup "full_sync" with
      | none => simp [hfull] at hprep
      | some v1 =>
        cases hsync : doc.lookup "sync_token" with
        | none => simp [hfull, hsync] at hprep
        | some v2 =>
          simp [hfull, hsync] at hprep
          obtain ⟨-, hclient⟩ := hprep
          subst hclient
          simp [get_records, hkey]

/-- Witness for C2: on the spec's mocked response, reading `projects` yields
exactly `[{"id": "1", "name": "A"}]`. -/
theorem get_records_passthrough_witness :
    get_records ⟨some exampleDoc⟩ "projects" =
      .ok (.arr [.obj [("id", .str "1"), ("name", .str "A")]]) :=
  get_records_passthrough [("token", "t")] TodoistClient.init exampleResponse
    [.networkCall] ⟨some exampleDoc⟩ exampleDoc "projects"
    (.arr [.obj [("id", .str "1"), ("name", .str "A")]]) rfl rfl rfl

/-- C3: `get_records` fails exactly when no response has been stored
(`fetch` not yet called: `_data` still `None`, as on a fresh client) or the
stream name is absent from the stored document; and the only failure outcome
is `MissingStreamError`. -/
theorem get_records_missing_iff (client : TodoistClient) (name : String) :
    (get_records client name = .error .missingStreamError ↔
      client._data = none ∨
        ∃ doc, client._data = some doc ∧ doc.lookup name = none) ∧
    (∀ e, get_records client name = .error e → e = .missingStreamError) ∧
    TodoistClient.init._data = none := by
  refine ⟨?_, ?_, rfl⟩
  · unfold get_records
    cases hdata : client._data with
    | none => simp
    | some doc =>
      cases hkey : doc.lookup name with
      | none => simp [hkey]
      | some v => simp [hkey]
  · intro e he
    unfold get_records at he
    cases hdata : client._data with
    | none =>
      rw [hdata] at he
      simp at he
      exact he.symm
    | some doc =>
      rw [hdata] at he
      cases hkey : doc.lookup name with
      | none =>
        simp [hkey] at he
        exact he.symm
      | some v => simp [hkey] at he

/-- Witness for C3: on a fresh client (no fetch yet), reading `projects`
fails with `MissingStreamError`. -/
theorem get_records_missing_iff_witness :
    get_records TodoistClient.init "projects" = .error .missingStreamError :=
  (get_records_missing_iff TodoistClient.init "projects").1.mpr (Or.inl rfl)

/-- Counterexample for C4 as stated: status `304` is not 2xx, yet
`prepare` does not raise `TransportError` there (`raise_for_status` only
raises for 4xx/5xx), and the run proceeds. -/
theorem prepare_non2xx_counterexample :
    ¬(200 ≤ 304 ∧ 304 < 300) ∧
    (prepare [("token", "t")] TodoistClient.init ⟨304, some exampleDoc⟩).2.2 ≠
      some Err.transportError := by
  exact ⟨by decide, by decide⟩

/-- C4 (amended): for every HTTP status in the 4xx/5xx range — the statuses
`raise_for_status` treats as errors — `prepare` fails with `TransportError`,
the client state is unchanged, and when the pre-fetch state was unset every
subsequent `get_records` call fails. -/
theorem prepare_transport_error (config : Config) (token : String)
    (client : TodoistClient) (response : HttpResponse)
    (htoken : configLookup config "token" = some token)
    (hlo : 400 ≤ response.status) (hhi : response.status < 600) :
    prepare config client response =
      ([.networkCall], client, some .transportError) ∧
    (client._data = none →
      ∀ name, get_records client name = .error .missingStreamError) := by
  constructor
  · unfold prepare get_auth
    rw [htoken]
    simp [hlo, hhi]
  · intro hdata name
    unfold get_records
    rw [hdata]

/-- Witness for C4 (amended): a mocked HTTP 500 response makes `prepare`
fail with `TransportError` and leaves no records retrievable. -/
theorem prepare_transport_error_witness :
    prepare [("token", "t")] TodoistClient.init ⟨500, none⟩ =
      ([.networkCall], TodoistClient.init, some .transportError) ∧
    get_records TodoistClient.init "projects" = .error .missingStreamError := by
  have h := prepare_transport_error [("token", "t")] "t" TodoistClient.init
    ⟨500, none⟩ rfl (by decide) (by decide)
  exact ⟨h.1, h.2 rfl "projects"⟩

/-- C5: for every config without a `token` key, authentication fails with
`ConfigurationError`, and `prepare` fails the same way with an empty event
trace: no network call is attempted. -/
theorem get_auth_missing_token (config : Config) (client : TodoistClient)
    (response : HttpResponse)
    (htoken : configLookup config "token" = none) :
    get_auth config = .error .configurationError ∧
    prepare config client response = ([], client, some .configurationError) := by
  have hauth : get_auth config = .error .configurationError := by
    unfold get_auth; rw [htoken]
  refine ⟨hauth, ?_⟩
  unfold prepare
  rw [hauth]

/-- Witness for C5: the empty config has no token; no network event is
emitted and the outcome is `ConfigurationError`. -/
theorem get_auth_missing_token_witness :
    get_auth [] = .error .configurationError ∧
    prepare [] TodoistClient.init ⟨200, none⟩ =
      ([], TodoistClient.init, some .configurationError) :=
  get_auth_missing_token [] TodoistClient.init ⟨200, none⟩ rfl

/-- C6: for every config, discovery on a fresh catalog yields exactly one
entry per `SCHEMAS` registry entry, carrying that entry's name and schema,
key property `id`, the log-based replication marker, and the selected
flag set. -/
theorem discover_entries_spec (config : Config) :
    ((discover config []).map fun e =>
        (e.tap_stream_id, e.schema, e.key_properties, e.replication_method,
         e.selected)) =
      (SCHEMAS.map fun p => (p.1, p.2, ["id"], REPLICATION_LOG_BASED, true)) ∧
    (discover config []).length = SCHEMAS.length :=
  ⟨rfl, rfl⟩

/-- C7: discovery is idempotent — for every config, running `discover` a
second time with the same config on the resulting catalog returns the very
same catalog (hence identical stream names, schemas and key fields). -/
theorem discover_idempotent (config : Config) :
    discover config (discover config []) = discover config [] := rfl

/-- C8: each of the seven declared stream names resolves in the schema
registry to a non-empty field list that includes an `id` field. -/
theorem schema_for_id (name : String)
    (h : name ∈ ["projects", "items", "sections", "labels", "notes",
                 "filters", "reminders"]) :
    ∃ fields, schema_for name = some fields ∧ fields.isEmpty = false ∧
      (fields.map Property.name).contains "id" = true := by
  simp only [List.mem_cons, List.not_mem_nil, or_false] at h
  rcases h with h | h | h | h | h | h | h <;> subst h <;>
    exact ⟨_, rfl, rfl, rfl⟩

/-- Witness for C8: the `projects` schema has a non-empty field list with an
`id` field. -/
theorem schema_for_id_witness :
    ∃ fields, schema_for "projects" = some fields ∧ fields.isEmpty = false ∧
      (fields.map Property.name).contains "id" = true :=
  schema_for_id "projects" (by decide)

/-- Case analysis of `prepare`: either authentication fails before any
network call and the client is untouched, or the one POST is sent and the
call fails, or the POST is sent and `prepare` succeeds. -/
theorem prepare_cases (config : Config) (client : TodoistClient)
    (response : HttpResponse) :
    (∃ e, prepare config client response = ([], client, some e)) ∨
    (∃ e client2, prepare config client response =
      ([.networkCall], client2, some e)) ∨
    (∃ client2, prepare config client response =
      ([.networkCall], client2, none)) := by
  rcases hauth : get_auth config with e | token
  · exact Or.inl ⟨e, by simp [prepare, hauth]⟩
  · by_cases hst : 400 ≤ response.status ∧ response.status < 600
    · exact Or.inr (Or.inl ⟨.transportError, client, by simp [prepare, hauth, hst]⟩)
    · rcases hbody : response.body with _ | doc
      · exact Or.inr (Or.inl ⟨.jsonError, client,
          by simp [prepare, hauth, hst, hbody]⟩)
      · rcases hfull : doc.lookup "full_sync" with _ | v1
        · exact Or.inr (Or.inl ⟨.keyError, ⟨some doc⟩,
            by simp [prepare, hauth, hst, hbody, hfull]⟩)
        · rcases hsync : doc.lookup "sync_token" with _ | v2
          · exact Or.inr (Or.inl ⟨.keyError, ⟨some doc⟩,
              by simp [prepare, hauth, hst, hbody, hfull, hsync]⟩)
          · exact Or.inr (Or.inr ⟨⟨some doc⟩,
              by simp [prepare, hauth, hst, hbody, hfull, hsync]⟩)

/-- C9: every run's phase trace is strictly sequential and single-pass —
it starts with the one discovery, a fetch can only follow it immediately,
record reads only come after the fetch, and a run that ends in an error has
no read phase at all. -/
theorem sync_all_phases (config : Config) (response : HttpResponse) :
    (sync_all config response).1.head? = some Phase.discovery ∧
    ((sync_all config response).1 = [Phase.discovery] ∨
      (sync_all config response).1 = [Phase.discovery, Phase.fetch] ∨
      ∃ reads, (sync_all config response).1 =
          Phase.discovery :: Phase.fetch :: reads ∧
        ∀ p ∈ reads, ∃ s, p = Phase.read s) ∧
    ((sync_all config response).2.isSome = true →
      ∀ s, Phase.read s ∉ (sync_all config response).1) := by
  rcases prepare_cases config TodoistClient.init response with
    ⟨e, heq⟩ | ⟨e, client2, heq⟩ | ⟨client2, heq⟩
  · have hs : sync_all config response = ([Phase.discovery], some e) := by
      simp [sync_all, heq]
    rw [hs]
    refine ⟨rfl, Or.inl rfl, ?_⟩
    intro _ s
    simp
  · have hs : sync_all config response =
        ([Phase.discovery, Phase.fetch], some e) := by
      simp [sync_all, heq]
    rw [hs]
    refine ⟨rfl, Or.inr (Or.inl rfl), ?_⟩
    intro _ s
    simp
  · have hs : sync_all config response =
        (Phase.discovery :: Phase.fetch ::
          framework_sync_all (discover config []), none) := by
      simp [sync_all, heq]
    rw [hs]
    refine ⟨rfl, Or.inr (Or.inr
      ⟨framework_sync_all (discover config []), rfl, ?_⟩), ?_⟩
    · intro p hp
      simp only [framework_sync_all] at hp
      rcases List.mem_map.mp hp with ⟨entry, -, hpe⟩
      exact ⟨entry.tap_stream_id, hpe.symm⟩
    · intro habs
      simp at habs

/-- Witness for C9: a run that fails (here: no token configured) starts with
discovery and contains no record read. -/
theorem sync_all_phases_witness :
    (sync_all [] ⟨500, none⟩).1.head? = some Phase.discovery ∧
    Phase.read "projects" ∉ (sync_all [] ⟨500, none⟩).1 := by
  have h := sync_all_phases [] ⟨500, none⟩
  exact ⟨h.1, h.2.2 (by decide) "projects"⟩

/-- Setting a header makes it retrievable with its new value. -/
theorem headerGet_headerSet_self (headers : List (String × String))
    (key value : String) :
    headerGet (headerSet headers key value) key = some value := by
  induction headers with
  | nil => simp [headerSet, headerGet]
  | cons h rest ih =>
    obtain ⟨k0, v0⟩ := h
    by_cases hcase : lowerKey k0 = lowerKey key
    · simp [headerSet, headerGet, hcase]
    · simp [headerSet, headerGet, hcase, ih]

/-- Setting a header leaves every case-insensitively different header
unchanged. -/
theorem headerGet_headerSet_other (headers : List (String × String))
    (key value k : String) (hk : lowerKey k ≠ lowerKey key) :
    headerGet (headerSet headers key value) k = headerGet headers k := by
  induction headers with
  | nil => simp [headerSet, headerGet, Ne.symm hk]
  | cons h rest ih =>
    obtain ⟨k0, v0⟩ := h
    by_cases hcase : lowerKey k0 = lowerKey key
    · have h2 : lowerKey k0 ≠ lowerKey k := by
        rw [hcase]; exact Ne.symm hk
      simp [headerSet, headerGet, hcase, Ne.symm hk, h2]
    · by_cases h3 : lowerKey k0 = lowerKey k
      · simp [headerSet, headerGet, hcase, h3, hk]
      · simp [headerSet, headerGet, hcase, h3, hk, ih]

/-- C10: for every token and request, `BearerAuth.__call__` returns the
request with its `Authorization` header set to `Bearer` followed by the
token, leaves every other header unchanged, and leaves the method, URL and
body of the request unchanged. -/
theorem bearer_auth_call_spec (token : String) (request : PreparedRequest) :
    headerGet (BearerAuth.call token request).headers "Authorization" =
      some ("Bearer " ++ token) ∧
    (∀ k, lowerKey k ≠ lowerKey "Authorization" →
      headerGet (BearerAuth.call token request).headers k =
        headerGet request.headers k) ∧
    (BearerAuth.call token request).method = request.method ∧
    (BearerAuth.call token request).url = request.url ∧
    (BearerAuth.call token request).body = request.body := by
  refine ⟨?_, ?_, rfl, rfl, rfl⟩
  · exact headerGet_headerSet_self request.headers "Authorization"
      ("Bearer " ++ token)
  · intro k hk
    exact headerGet_headerSet_other request.headers "Authorization"
      ("Bearer " ++ token) k hk

/-- Witness for C10: on a request with a `Content-Type` header, the bearer
hook adds `Authorization: Bearer t` and keeps `Content-Type` intact. -/
theorem bearer_auth_call_spec_witness :
    headerGet (BearerAuth.call "t"
        ⟨"POST", "u", [("Content-Type", "x")], "b"⟩).headers "Authorization" =
      some "Bearer t" ∧
    headerGet (BearerAuth.call "t"
        ⟨"POST", "u", [("Content-Type", "x")], "b"⟩).headers "Content-Type" =
      some "x" := by
  have h := bearer_auth_call_spec "t" ⟨"POST", "u", [("Content-Type", "x")], "b"⟩
  refine ⟨h.1, ?_⟩
  have h2 := h.2.1 "Content-Type" (by decide)
  rw [h2]
  rfl

end TapTodoist
